import Mathlib

/-!
# Verification of the WB Promote optimizer core

Shallow embedding of the rule-based campaign bid/budget optimizer
(`_resolve_date_range`, `_aggregate_keyword_rows_by_nm`, `_campaign_metrics`,
`_recommend_nm_bid`, `_round_to_step`, `_round_up`, the bids-plan sorting and
payload assembly of `optimize_bids_plan` / `_build_bids_patch_payload`, and the
budget planner of `optimize_budget_plan`).

Modelling conventions:
* Python floats are embedded as exact rationals (`ℚ`); Python ints as `ℤ`.
* Python `round` (banker's rounding, half to even) is `rhe`; `round(x, 2)`
  is `round2`; `int(x)` on a float is `truncQ` (truncation toward zero).
* Python `sorted` / `list.sort` is a stable sort; it is embedded as
  `List.insertionSort` (stable) over the decidable order given by the sort key,
  with `reverse=True` embedded by flipping the key comparison.
* Keyword query text is never inspected by the code, only carried along; it is
  abstracted as an optional integer identifier.
* JSON dicts with fixed fields become structures; a field that the code reads
  through `_as_num(...) or 0` is stored already coerced.
-/

namespace WbOpt

/-- Floor of a rational as an integer (`q.num.fdiv q.den`). -/
def qfloor (q : ℚ) : ℤ := q.num.fdiv (q.den : ℤ)

/-- Ceiling of a rational as an integer. -/
def qceil (q : ℚ) : ℤ := -(qfloor (-q))

/-- Python `round(x)` on a float/rational value: round half to even. -/
def rhe (q : ℚ) : ℤ :=
  let f := qfloor q
  let frac := q - (f : ℚ)
  if frac < 1/2 then f
  else if 1/2 < frac then f + 1
  else if f % 2 = 0 then f else f + 1

/-- Python `round(x, 2)`: round to 2 decimal places, half to even. -/
def round2 (q : ℚ) : ℚ := ((rhe (q * 100) : ℚ)) / 100

/-- Python `int(x)` on a float: truncation toward zero. -/
def truncQ (q : ℚ) : ℤ := if 0 ≤ q then qfloor q else -(qfloor (-q))

/-! ## Performance Aggregator (`_aggregate_keyword_rows_by_nm`)

The source groups keyword rows by `(advert_id, nm_id)` into a mutable dict and
finally derives ratios per group.  The embedding below models the per-group
computation: `stepRow` is the loop body run on each row of one group, and
`finalizeAcc` is the finalization loop body for that group's accumulator. -/

/-- One keyword daily statistic row, after the numeric coercions done by
`_extract_keyword_rows` (`_as_num(...) or 0` for the counters, `_as_num`
for `avg_pos`). The query text is abstracted to an optional integer id. -/
structure KwRow where
  norm_query : Option ℤ
  views : ℚ
  clicks : ℚ
  orders : ℚ
  atbs : ℚ
  spend : ℚ
  avg_pos : Option ℚ
deriving DecidableEq

/-- One entry of a group's `bad_queries` list. -/
structure BadQuery where
  query : Option ℤ
  clicks : ℤ
  spend_rub : ℚ
deriving DecidableEq

/-- The per-group accumulator built by the grouping loop of
`_aggregate_keyword_rows_by_nm`. -/
structure NmAcc where
  views : ℚ
  clicks : ℚ
  orders : ℚ
  atbs : ℚ
  spend : ℚ
  query_rows : ℤ
  apWSum : ℚ
  apWeight : ℚ
  bad_queries : List BadQuery
deriving DecidableEq

/-- The fresh accumulator created when a `(advert_id, nm_id)` key is first seen. -/
def initAcc : NmAcc :=
  { views := 0, clicks := 0, orders := 0, atbs := 0, spend := 0, query_rows := 0,
    apWSum := 0, apWeight := 0, bad_queries := [] }

/-- The loop body of `_aggregate_keyword_rows_by_nm` for one row of a group:
sums the counters, accumulates the position weight (`weight = views or clicks`,
used only when `avg_pos` is present and the weight is positive), and appends a
bad-query candidate when `clicks >= 10 and orders <= 0 and spend > 0`. -/
def stepRow (acc : NmAcc) (r : KwRow) : NmAcc :=
  let weight : ℚ := if r.views = 0 then r.clicks else r.views
  let hitPos : Bool := r.avg_pos.isSome && decide (0 < weight)
  let posVal : ℚ := r.avg_pos.getD 0
  { views := acc.views + r.views,
    clicks := acc.clicks + r.clicks,
    orders := acc.orders + r.orders,
    atbs := acc.atbs + r.atbs,
    spend := acc.spend + r.spend,
    query_rows := acc.query_rows + 1,
    apWSum := acc.apWSum + (if hitPos then posVal * weight else 0),
    apWeight := acc.apWeight + (if hitPos then weight else 0),
    bad_queries := acc.bad_queries ++
      (if 10 ≤ r.clicks ∧ r.orders ≤ 0 ∧ 0 < r.spend
       then [{ query := r.norm_query, clicks := truncQ r.clicks,
               spend_rub := round2 r.spend }]
       else []) }

/-- The sort order of the bad-query finalization:
`sorted(..., key=lambda q: (spend_rub, clicks), reverse=True)` (stable). -/
def badRel (a b : BadQuery) : Prop :=
  b.spend_rub < a.spend_rub ∨ (a.spend_rub = b.spend_rub ∧ b.clicks ≤ a.clicks)

instance : DecidableRel badRel := fun a b => by unfold badRel; infer_instance

instance : IsTotal BadQuery badRel := by
  constructor
  intro a b
  unfold badRel
  rcases lt_trichotomy a.spend_rub b.spend_rub with h | h | h
  · exact Or.inr (Or.inl h)
  · rcases le_total a.clicks b.clicks with hc | hc
    · exact Or.inr (Or.inr ⟨h.symm, hc⟩)
    · exact Or.inl (Or.inr ⟨h, hc⟩)
  · exact Or.inl (Or.inl h)

instance : IsTrans BadQuery badRel := by
  constructor
  intro a b c hab hbc
  unfold badRel at *
  rcases hab with h1 | ⟨h1, h1c⟩ <;> rcases hbc with h2 | ⟨h2, h2c⟩
  · exact Or.inl (h2.trans h1)
  · exact Or.inl (h2 ▸ h1)
  · exact Or.inl (h1 ▸ h2)
  · exact Or.inr ⟨h1.trans h2, h2c.trans h1c⟩

/-- The per-group result of `_aggregate_keyword_rows_by_nm` after finalization.
The same record is the `perf` input of `_recommend_nm_bid`. -/
structure NmPerf where
  views : ℤ
  clicks : ℤ
  orders : ℤ
  atbs : ℤ
  spend_rub : ℚ
  query_rows : ℤ
  ctr : Option ℚ
  cpc_rub : Option ℚ
  cpa_rub : Option ℚ
  avg_pos : Option ℚ
  bad_queries : List BadQuery
deriving DecidableEq

/-- The finalization loop body of `_aggregate_keyword_rows_by_nm` for one
group's accumulator. -/
def finalizeAcc (acc : NmAcc) : NmPerf :=
  { views := truncQ acc.views,
    clicks := truncQ acc.clicks,
    orders := truncQ acc.orders,
    atbs := truncQ acc.atbs,
    spend_rub := round2 acc.spend,
    query_rows := acc.query_rows,
    ctr := if 0 < acc.views then some (round2 (acc.clicks / acc.views * 100)) else none,
    cpc_rub := if 0 < acc.clicks then some (round2 (acc.spend / acc.clicks)) else none,
    cpa_rub := if 0 < acc.orders then some (round2 (acc.spend / acc.orders)) else none,
    avg_pos := if 0 < acc.apWeight then some (round2 (acc.apWSum / acc.apWeight)) else none,
    bad_queries := (acc.bad_queries.insertionSort badRel).take 5 }

/-- Aggregation of the rows of one `(advert_id, nm_id)` group. -/
def aggregateRows (rows : List KwRow) : NmPerf :=
  finalizeAcc (rows.foldl stepRow initAcc)

/-! ## Metrics Calculator (`_campaign_metrics`) -/

/-- The fields of a campaign fullstats record read by `_campaign_metrics`,
after the `int(_as_num(...) or 0)` / `float(_as_num(...) or 0.0)` coercions. -/
structure StatIn where
  views : ℤ
  clicks : ℤ
  orders : ℤ
  spend : ℚ
  revenue : ℚ
deriving DecidableEq

/-- The campaign metrics record returned by `_campaign_metrics`. -/
structure CampaignMetrics where
  views : ℤ
  clicks : ℤ
  orders : ℤ
  spend_rub : ℚ
  revenue_rub : ℚ
  ctr : Option ℚ
  cpc_rub : Option ℚ
  cpa_rub : Option ℚ
  roas : Option ℚ
  acos : Option ℚ
deriving DecidableEq

/-- `_campaign_metrics`: derives CTR/CPC/CPA/ROAS/ACOS with Python truthiness
guards (`if views`, `if clicks`, `if orders`, `if spend_rub > 0`,
`if revenue_rub > 0`). -/
def campaignMetrics (s : StatIn) : CampaignMetrics :=
  { views := s.views,
    clicks := s.clicks,
    orders := s.orders,
    spend_rub := round2 s.spend,
    revenue_rub := round2 s.revenue,
    ctr := if s.views = 0 then none
           else some (round2 ((s.clicks : ℚ) / (s.views : ℚ) * 100)),
    cpc_rub := if s.clicks = 0 then none
               else some (round2 (s.spend / (s.clicks : ℚ))),
    cpa_rub := if s.orders = 0 then none
               else some (round2 (s.spend / (s.orders : ℚ))),
    roas := if 0 < s.spend then some (round2 (s.revenue / s.spend)) else none,
    acos := if 0 < s.revenue then some (round2 (s.spend / s.revenue * 100)) else none }

/-! ## Bid Recommendation Engine (`_recommend_nm_bid`, `_round_to_step`) -/

/-- Ad placement kind (`search` / `recommendations` / `combined`). -/
inductive Placement
  | search
  | recommendations
  | combined
deriving DecidableEq

/-- The `action` chosen by the rule cascade. -/
inductive BidAction
  | hold
  | increase
  | decrease
deriving DecidableEq

/-- Which rule of the cascade produced the action.  The source distinguishes
the rules by their (distinct) human-readable `reason` strings; the tag is the
abstraction of that string. -/
inductive RuleTag
  | holdTag
  | killTag
  | cpaTag
  | ctrTag
  | incTag
deriving DecidableEq

/-- The configuration bundle of keyword options passed to `_recommend_nm_bid`. -/
structure BidCfg where
  target_cpa : Option ℚ
  min_clicks : ℤ
  kill_clicks : ℤ
  min_ctr : Option ℚ
  max_avg_pos : Option ℚ
  increase_pct : ℤ
  decrease_pct : ℤ
  strong_decrease_pct : ℤ
  min_orders_for_increase : ℤ
  bid_step : ℤ
  max_bid_kopecks : Option ℤ
  min_bid_floor_kopecks : Option ℤ
deriving DecidableEq

/-- Result of the rule cascade: action, signed delta percentage, priority
score, and the rule that fired. -/
structure RuleChoice where
  action : BidAction
  delta_pct : ℤ
  priority : ℚ
  tag : RuleTag
deriving DecidableEq

/-- The CPA-exceeded rule guard: `target_cpa is not None and orders > 0 and
cpa_rub is not None and cpa_rub > target_cpa * 1.15`; returns the target and
the CPA when it fires. -/
def cpaHit (p : NmPerf) (c : BidCfg) : Option (ℚ × ℚ) :=
  match c.target_cpa, p.cpa_rub with
  | some t, some cpa =>
      if 0 < p.orders ∧ t * (23/20) < cpa then some (t, cpa) else none
  | _, _ => none

/-- The CTR-floor rule guard: `min_ctr is not None and orders == 0 and
clicks >= min_clicks and ctr is not None and ctr < min_ctr`; returns the floor
and the CTR when it fires. -/
def ctrHit (p : NmPerf) (c : BidCfg) : Option (ℚ × ℚ) :=
  match c.min_ctr, p.ctr with
  | some f, some ctr =>
      if p.orders = 0 ∧ c.min_clicks ≤ p.clicks ∧ ctr < f then some (f, ctr) else none
  | _, _ => none

/-- The increase rule guard: `orders >= min_orders_for_increase` with
`good_by_cpa and (weak_position or target_cpa is not None)`. -/
def increaseHit (p : NmPerf) (c : BidCfg) : Bool :=
  if c.min_orders_for_increase ≤ p.orders then
    let good_by_cpa : Bool := c.target_cpa.isNone ||
      (match c.target_cpa, p.cpa_rub with
       | some t, some cpa => decide (cpa ≤ t * (17/20))
       | _, _ => false)
    let weak_position : Bool :=
      match c.max_avg_pos, p.avg_pos with
      | some m, some ap => decide (m < ap)
      | _, _ => false
    good_by_cpa && (weak_position || c.target_cpa.isSome)
  else false

/-- The `if/elif` rule cascade of `_recommend_nm_bid` (kill, CPA-exceeded,
CTR-floor, increase, otherwise hold), first match wins. -/
def selectRule (p : NmPerf) (c : BidCfg) : RuleChoice :=
  if p.orders = 0 ∧ c.kill_clicks ≤ p.clicks then
    { action := .decrease, delta_pct := -|c.strong_decrease_pct|,
      priority := p.spend_rub + (p.clicks : ℚ), tag := .killTag }
  else
    match cpaHit p c with
    | some (t, cpa) =>
        { action := .decrease, delta_pct := -|c.decrease_pct|,
          priority := p.spend_rub + max 0 (cpa - t), tag := .cpaTag }
    | none =>
      match ctrHit p c with
      | some (f, ctr) =>
          { action := .decrease, delta_pct := -|c.decrease_pct|,
            priority := p.spend_rub + max 0 ((f - ctr) * 10), tag := .ctrTag }
      | none =>
        if increaseHit p c then
          { action := .increase, delta_pct := |c.increase_pct|,
            priority := (p.orders : ℚ) * 10 + max 0 (p.spend_rub / 10), tag := .incTag }
        else
          { action := .hold, delta_pct := 0, priority := 0, tag := .holdTag }

/-- `_round_to_step`: `value` if `step <= 1`, else `int(round(value / step) * step)`. -/
def roundToStep (value step : ℤ) : ℤ :=
  if step ≤ 1 then value else rhe ((value : ℚ) / (step : ℚ)) * step

/-- One emitted bid recommendation (the dict built by `_recommend_nm_bid`;
the campaign name and the embedded perf snapshot are carried by the caller and
not needed by any downstream computation except `perf.spend_rub`, kept here as
`spend_rub`). -/
structure BidRec where
  campaign_id : ℤ
  nm_id : ℤ
  placement : Placement
  action : BidAction
  tag : RuleTag
  priority_score : ℚ
  current_bid_kopecks : ℤ
  new_bid_kopecks : ℤ
  delta_kopecks : ℤ
  delta_pct : Option ℚ
  min_bid_floor_kopecks : Option ℤ
  spend_rub : ℚ
deriving DecidableEq

/-- `_recommend_nm_bid`: eligibility gate, rule cascade, bid arithmetic with
step rounding and floor/cap clamps, and no-op suppression. -/
def recommendNmBid (campaign_id nm_id : ℤ) (placement : Placement)
    (current_bid_kopecks : ℤ) (p : NmPerf) (c : BidCfg) : Option BidRec :=
  if p.clicks < c.min_clicks ∧ p.views < max 1000 (c.min_clicks * 30) then none
  else
    let rc := selectRule p c
    if rc.action = .hold then none
    else
      let step := max 1 c.bid_step
      let nb0 := rhe ((current_bid_kopecks : ℚ) * (1 + (rc.delta_pct : ℚ) / 100))
      let nb1 := roundToStep (max 1 nb0) step
      let nb2 := match c.min_bid_floor_kopecks with
        | some f => if nb1 < f then roundToStep f step else nb1
        | none => nb1
      let nb3 := match c.max_bid_kopecks with
        | some m => if m < nb2 then roundToStep m step else nb2
        | none => nb2
      if nb3 = current_bid_kopecks then none
      else
        some { campaign_id := campaign_id, nm_id := nm_id, placement := placement,
               action := rc.action, tag := rc.tag,
               priority_score := round2 rc.priority,
               current_bid_kopecks := current_bid_kopecks,
               new_bid_kopecks := nb3,
               delta_kopecks := nb3 - current_bid_kopecks,
               delta_pct := if current_bid_kopecks = 0 then none
                 else some (round2 (((nb3 : ℚ) / (current_bid_kopecks : ℚ) - 1) * 100)),
               min_bid_floor_kopecks := c.min_bid_floor_kopecks,
               spend_rub := round2 p.spend_rub }

/-! ## Plan Assembler (`optimize_bids_plan` sorting/truncation,
`_build_bids_patch_payload`) -/

/-- The sort order of `recommendations.sort(key=lambda r: (priority_score,
perf.spend_rub), reverse=True)` (stable). -/
def planRel (a b : BidRec) : Prop :=
  b.priority_score < a.priority_score ∨
    (a.priority_score = b.priority_score ∧ b.spend_rub ≤ a.spend_rub)

instance : DecidableRel planRel := fun a b => by unfold planRel; infer_instance

instance : IsTotal BidRec planRel := by
  constructor
  intro a b
  unfold planRel
  rcases lt_trichotomy a.priority_score b.priority_score with h | h | h
  · exact Or.inr (Or.inl h)
  · rcases le_total a.spend_rub b.spend_rub with hc | hc
    · exact Or.inr (Or.inr ⟨h.symm, hc⟩)
    · exact Or.inl (Or.inr ⟨h, hc⟩)
  · exact Or.inl (Or.inl h)

instance : IsTrans BidRec planRel := by
  constructor
  intro a b c hab hbc
  unfold planRel at *
  rcases hab with h1 | ⟨h1, h1c⟩ <;> rcases hbc with h2 | ⟨h2, h2c⟩
  · exact Or.inl (h2.trans h1)
  · exact Or.inl (h2 ▸ h1)
  · exact Or.inl (h1 ▸ h2)
  · exact Or.inr ⟨h1.trans h2, h2c.trans h1c⟩

/-- The sorting step of `optimize_bids_plan` (highest priority, then highest
spend, first; Python's sort is stable). -/
def planSort (recs : List BidRec) : List BidRec := recs.insertionSort planRel

/-- Sorting plus the optional `max_changes` truncation
(`recommendations[: max(0, max_changes)]`). -/
def assemblePlan (recs : List BidRec) (max_changes : Option ℤ) : List BidRec :=
  match max_changes with
  | none => planSort recs
  | some m => (planSort recs).take (max 0 m).toNat

/-- One `nm_bids` entry of the submission payload. -/
structure NmBid where
  nm_id : ℤ
  bid_kopecks : ℤ
  placement : Placement
deriving DecidableEq

/-- `_build_bids_patch_payload`: group recommendations by campaign id keeping
their order within a campaign, and list campaigns in ascending id order
(`sorted(by_campaign.items())`).  In the typed model every recommendation has a
campaign id, nm id, bid and non-empty placement, so the row-validity guard of
the source never drops an entry. -/
def buildBidsPatchPayload (recs : List BidRec) : List (ℤ × List NmBid) :=
  let cids := (recs.map (fun r => r.campaign_id)).dedup
  (cids.insertionSort (· ≤ ·)).map (fun cid =>
    (cid, (recs.filter (fun r => r.campaign_id = cid)).map
      (fun r => { nm_id := r.nm_id, bid_kopecks := r.new_bid_kopecks,
                  placement := r.placement })))

/-! ## Date Range Resolver (`_resolve_date_range`)

Dates are embedded as integer day numbers; a user-supplied date string is
`Option (Option ℤ)`: `none` when the option is absent, `some none` when a
string is given but `date.fromisoformat` raises, and `some (some d)` when it
parses to day `d`.  `today` is the invocation day. -/

/-- The validation errors raised by `_resolve_date_range` (each constructor
stands for one of the distinct `print_error` messages). -/
inductive ValidationError
  | useBothOrNeither
  | invalidDate
  | fromAfterTo
  | rangeTooLarge
deriving DecidableEq

/-- `_resolve_date_range`: XOR check, default window ending yesterday, parse,
order check, 31-day cap; returns `(start, end, inclusive day list, day count)`. -/
def resolveDateRange (date_from date_to : Option (Option ℤ)) (today : ℤ)
    (default_days : ℤ) : Except ValidationError (ℤ × ℤ × List ℤ × ℤ) :=
  if date_from.isNone ≠ date_to.isNone then .error .useBothOrNeither
  else
    let se : Except ValidationError (ℤ × ℤ) :=
      match date_from, date_to with
      | none, none =>
          .ok (today - 1 - max 0 (default_days - 1), today - 1)
      | some pf, some pt =>
          match pf, pt with
          | some s, some e => .ok (s, e)
          | _, _ => .error .invalidDate
      | _, _ => .error .useBothOrNeither
    match se with
    | .error err => .error err
    | .ok (s, e) =>
        if e < s then .error .fromAfterTo
        else
          let days := e - s + 1
          if 31 < days then .error .rangeTooLarge
          else .ok (s, e, (List.range days.toNat).map (fun i : ℕ => s + (i : ℤ)), days)

/-- `true` exactly on the success branch of the resolver. -/
def rdrIsOk (x : Except ValidationError (ℤ × ℤ × List ℤ × ℤ)) : Bool :=
  match x with
  | .ok _ => true
  | .error _ => false

/-! ## Budget Planner (`optimize_budget_plan`, `_round_up`) -/

/-- `_round_up`: `value` if `step <= 1`, else `((value + step - 1) // step) * step`. -/
def roundUpInt (value step : ℤ) : ℤ :=
  if step ≤ 1 then value else ((value + step - 1).fdiv step) * step

/-- The configuration options of `optimize_budget_plan`. -/
structure BudgetCfg where
  target_runway_days : ℚ
  min_spend_per_day_rub : ℚ
  max_cpa : Option ℚ
  min_roas : Option ℚ
  round_to_kopecks : ℤ
  min_topup_kopecks : ℤ
deriving DecidableEq

/-- One campaign as seen by the budget-planner loop: its id, its fullstats
record when present, and its budget record's `total` (already coerced by
`_as_num(...) or 0`) when the budget record is present. -/
structure CampaignIn where
  campaign_id : ℤ
  stat : Option StatIn
  budget_total : Option ℚ
deriving DecidableEq

/-- One emitted `BudgetTopUpPlan`. -/
structure BudgetPlan where
  campaign_id : ℤ
  spend_per_day_rub : ℚ
  current_budget_kopecks : ℤ
  runway_days : ℚ
  suggested_topup_kopecks : ℤ
  metrics : CampaignMetrics
deriving DecidableEq

/-- The max-CPA skip guard: `max_cpa is not None and cpa_rub is not None and
cpa_rub > max_cpa`. -/
def cpaViolated (cfg : BudgetCfg) (m : CampaignMetrics) : Bool :=
  match cfg.max_cpa, m.cpa_rub with
  | some mc, some cpa => decide (mc < cpa)
  | _, _ => false

/-- The min-ROAS skip guard: `min_roas is not None and roas is not None and
roas < min_roas`. -/
def roasViolated (cfg : BudgetCfg) (m : CampaignMetrics) : Bool :=
  match cfg.min_roas, m.roas with
  | some mr, some roas => decide (roas < mr)
  | _, _ => false

/-- The per-campaign body of the `optimize_budget_plan` loop: skip unless both
stat and budget are present, skip on low spend/day, on a violated CPA or ROAS
constraint, on non-positive spend/day, and on sufficient runway; otherwise
compute the suggested top-up. -/
def budgetPlanFor (day_count : ℤ) (cfg : BudgetCfg) (camp : CampaignIn) :
    Option BudgetPlan :=
  match camp.stat, camp.budget_total with
  | some stat, some btotal =>
      let metrics := campaignMetrics stat
      let spd : ℚ := metrics.spend_rub / ((max day_count 1 : ℤ) : ℚ)
      if spd < cfg.min_spend_per_day_rub then none
      else if cpaViolated cfg metrics then none
      else if roasViolated cfg metrics then none
      else
        let total_kop : ℤ := truncQ btotal
        let spd_kop : ℚ := spd * 100
        if spd_kop ≤ 0 then none
        else
          let runway : ℚ := (total_kop : ℚ) / spd_kop
          if cfg.target_runway_days ≤ runway then none
          else
            let needed : ℤ := truncQ (max 0 ((cfg.target_runway_days - runway) * spd_kop))
            some { campaign_id := camp.campaign_id,
                   spend_per_day_rub := round2 spd,
                   current_budget_kopecks := total_kop,
                   runway_days := round2 runway,
                   suggested_topup_kopecks :=
                     roundUpInt (max needed cfg.min_topup_kopecks)
                       (max 1 cfg.round_to_kopecks),
                   metrics := metrics }
  | _, _ => none

/-- The sort order of `plans.sort(key=lambda r: (-(spend_per_day_rub or 0),
runway_days or 999))`: ascending, stable.  Note the Python `or 999` idiom: a
rounded runway of exactly `0` sorts as `999`. -/
def budgetRel (a b : BudgetPlan) : Prop :=
  -a.spend_per_day_rub < -b.spend_per_day_rub ∨
    (-a.spend_per_day_rub = -b.spend_per_day_rub ∧
      (if a.runway_days = 0 then (999 : ℚ) else a.runway_days) ≤
        (if b.runway_days = 0 then (999 : ℚ) else b.runway_days))

instance : DecidableRel budgetRel := fun a b => by unfold budgetRel; infer_instance

instance : IsTotal BudgetPlan budgetRel := by
  constructor
  intro a b
  unfold budgetRel
  rcases lt_trichotomy (-a.spend_per_day_rub) (-b.spend_per_day_rub) with h | h | h
  · exact Or.inl (Or.inl h)
  · rcases le_total (if a.runway_days = 0 then (999 : ℚ) else a.runway_days)
      (if b.runway_days = 0 then (999 : ℚ) else b.runway_days) with hc | hc
    · exact Or.inl (Or.inr ⟨h, hc⟩)
    · exact Or.inr (Or.inr ⟨h.symm, hc⟩)
  · exact Or.inr (Or.inl h)

instance : IsTrans BudgetPlan budgetRel := by
  constructor
  intro a b c hab hbc
  unfold budgetRel at *
  rcases hab with h1 | ⟨h1, h1c⟩ <;> rcases hbc with h2 | ⟨h2, h2c⟩
  · exact Or.inl (h1.trans h2)
  · exact Or.inl (h2 ▸ h1)
  · exact Or.inl (h1 ▸ h2)
  · exact Or.inr ⟨h1.trans h2, h1c.trans h2c⟩

/-- The budget-planner pipeline: per-campaign plans in input order, then the
stable sort by `(-spend_per_day, runway-key)`. -/
def optimizeBudgetPlan (day_count : ℤ) (cfg : BudgetCfg)
    (camps : List CampaignIn) : List BudgetPlan :=
  (camps.filterMap (budgetPlanFor day_count cfg)).insertionSort budgetRel

/-! ## Generic lemmas about the stable sort embedding -/

deriving instance DecidableEq for Except

attribute [local semireducible] Rat.mul Rat.add Rat.inv Rat.sub

/-- Input for the C1 witness: zero orders, 40 clicks, CTR 1% (below the
configured 5% floor with `clicks ≥ min_clicks`), so the CTR-floor rule's
condition holds as well. -/
def perfKill1 : NmPerf :=
  { views := 1000, clicks := 40, orders := 0, atbs := 0, spend_rub := 50,
    query_rows := 1, ctr := some 1, cpc_rub := none, cpa_rub := none,
    avg_pos := none, bad_queries := [] }

/-- Configuration for the C1 witness: `kill_clicks = 35`, `min_ctr = 5%`. -/
def cfgKill1 : BidCfg :=
  { target_cpa := none, min_clicks := 15, kill_clicks := 35, min_ctr := some 5,
    max_avg_pos := none, increase_pct := 10, decrease_pct := 10,
    strong_decrease_pct := 20, min_orders_for_increase := 2, bid_step := 10,
    max_bid_kopecks := none, min_bid_floor_kopecks := none }

/-- Input for the C6 witness: 5 clicks (< 15) and 500 views
(< max(1000, 450) = 1000), zero orders with high spend — the kill rule would
fire were the pair eligible. -/
def perfGate6 : NmPerf :=
  { views := 500, clicks := 5, orders := 0, atbs := 0, spend_rub := 400,
    query_rows := 1, ctr := some 1, cpc_rub := none, cpa_rub := none,
    avg_pos := none, bad_queries := [] }

/-- Configuration for the C6 witness (`min_clicks = 15`, `kill_clicks = 5`). -/
def cfgGate6 : BidCfg :=
  { target_cpa := none, min_clicks := 15, kill_clicks := 5, min_ctr := none,
    max_avg_pos := none, increase_pct := 10, decrease_pct := 10,
    strong_decrease_pct := 20, min_orders_for_increase := 2, bid_step := 10,
    max_bid_kopecks := none, min_bid_floor_kopecks := none }

/-- Concrete input for the C3 witness: positive spend, zero orders. -/
def statC3 : StatIn := { views := 100, clicks := 10, orders := 0, spend := 75, revenue := 0 }

/-! ## C4 — view/click-weighted average position -/

/-- The weight of one keyword row as the claim words it: its views when
positive, otherwise its clicks. -/
def rowWeight (r : KwRow) : ℚ := if 0 < r.views then r.views else r.clicks

/-- The contribution of one row to the total position weight: its weight when
a position is present and the weight is positive, else nothing. -/
def posWeight (r : KwRow) : ℚ :=
  if r.avg_pos.isSome ∧ 0 < rowWeight r then rowWeight r else 0

/-- The contribution of one row to the position-times-weight sum. -/
def posWeightedSum (r : KwRow) : ℚ :=
  match r.avg_pos with
  | some v => if 0 < rowWeight r then v * rowWeight r else 0
  | none => 0

/-- The two rows of the claim's worked example:
`(views=100, pos=2)` and `(views=0, clicks=10, pos=5)`. -/
def rowsC4 : List KwRow :=
  [{ norm_query := none, views := 100, clicks := 0, orders := 0, atbs := 0,
     spend := 0, avg_pos := some 2 },
   { norm_query := none, views := 0, clicks := 10, orders := 0, atbs := 0,
     spend := 0, avg_pos := some 5 }]

/-- The claim's worked examples: a row with `clicks=12, orders=0, spend=45`
(included), `clicks=12, orders=1` (excluded), `clicks=5, orders=0` (excluded). -/
def rowIncl5 : KwRow :=
  { norm_query := some 1, views := 50, clicks := 12, orders := 0, atbs := 0,
    spend := 45, avg_pos := none }

/-- C5 example row: an order was placed, so the row is not a bad query. -/
def rowOrd5 : KwRow :=
  { norm_query := some 2, views := 50, clicks := 12, orders := 1, atbs := 0,
    spend := 45, avg_pos := none }

/-- C5 example row: below the 10-click threshold. -/
def rowFew5 : KwRow :=
  { norm_query := some 3, views := 50, clicks := 5, orders := 0, atbs := 0,
    spend := 45, avg_pos := none }

/-! ## C2 — bid arithmetic, clamps and no-op suppression -/

/-- The bid arithmetic as the amended claim words it: `current × (1 +
delta/100)` is first rounded half-to-even to an integer, clamped to at least
1, then rounded to the nearest multiple of the bid step (step treated as at
least 1, the quotient rounded half-to-even); a configured floor raises and a
configured cap lowers the bid, re-rounding to the step each time. -/
def amendedNewBid (current delta_pct bid_step : ℤ) (floor cap : Option ℤ) : ℤ :=
  let step := max 1 bid_step
  let nb0 := rhe ((current : ℚ) * (1 + (delta_pct : ℚ) / 100))
  let nb1 := roundToStep (max 1 nb0) step
  let nb2 := match floor with
    | some f => if nb1 < f then roundToStep f step else nb1
    | none => nb1
  match cap with
  | some m => if m < nb2 then roundToStep m step else nb2
  | none => nb2

/-- Performance input for the C2 witness: the kill rule fires. -/
def perfDec2 : NmPerf :=
  { views := 0, clicks := 40, orders := 0, atbs := 0, spend_rub := 50,
    query_rows := 1, ctr := none, cpc_rub := none, cpa_rub := none,
    avg_pos := none, bad_queries := [] }

/-- Configuration for the C2 witness: a 10% (strong) decrease, step 10. -/
def cfgDec2 : BidCfg :=
  { target_cpa := none, min_clicks := 15, kill_clicks := 35, min_ctr := none,
    max_avg_pos := none, increase_pct := 10, decrease_pct := 10,
    strong_decrease_pct := 10, min_orders_for_increase := 2, bid_step := 10,
    max_bid_kopecks := none, min_bid_floor_kopecks := none }

/-- Performance input for the C2 counterexample: the increase rule fires
(2 orders, no target CPA, average position 10 worse than the 6 cap). -/
def perfInc2 : NmPerf :=
  { views := 2000, clicks := 20, orders := 2, atbs := 0, spend_rub := 50,
    query_rows := 1, ctr := some 1, cpc_rub := none, cpa_rub := none,
    avg_pos := some 10, bad_queries := [] }

/-- Configuration for the C2 counterexample: +46% increase, step 10. -/
def cfgInc2 : BidCfg :=
  { target_cpa := none, min_clicks := 15, kill_clicks := 35, min_ctr := none,
    max_avg_pos := some 6, increase_pct := 46, decrease_pct := 10,
    strong_decrease_pct := 20, min_orders_for_increase := 2, bid_step := 10,
    max_bid_kopecks := none, min_bid_floor_kopecks := none }

/-! ## C10 — the clamps do not bound the final bid -/

/-- Performance input for C10: the kill rule fires. -/
def perfClamp10 : NmPerf :=
  { views := 0, clicks := 40, orders := 0, atbs := 0, spend_rub := 50,
    query_rows := 1, ctr := none, cpc_rub := none, cpa_rub := none,
    avg_pos := none, bad_queries := [] }

/-- C10 cap configuration: max bid 15, step 10 (10% decrease). -/
def cfgCap10 : BidCfg :=
  { target_cpa := none, min_clicks := 15, kill_clicks := 35, min_ctr := none,
    max_avg_pos := none, increase_pct := 10, decrease_pct := 10,
    strong_decrease_pct := 10, min_orders_for_increase := 2, bid_step := 10,
    max_bid_kopecks := some 15, min_bid_floor_kopecks := none }

/-- C10 floor configuration: floor 14, step 10 (70% decrease). -/
def cfgFloor10 : BidCfg :=
  { target_cpa := none, min_clicks := 15, kill_clicks := 35, min_ctr := none,
    max_avg_pos := none, increase_pct := 10, decrease_pct := 10,
    strong_decrease_pct := 70, min_orders_for_increase := 2, bid_step := 10,
    max_bid_kopecks := none, min_bid_floor_kopecks := some 14 }

/-! ## C7 — date range resolver -/

/-- The start/end bounds the resolver works with, as the claim describes
them: the parsed dates when both are given, yesterday's window for the
default case, nothing when a date is missing or unparsable. -/
def resolvedBounds (date_from date_to : Option (Option ℤ)) (today d : ℤ) :
    Option (ℤ × ℤ) :=
  match date_from, date_to with
  | none, none => some (today - 1 - max 0 (d - 1), today - 1)
  | some (some s), some (some e) => some (s, e)
  | _, _ => none

/-- The claim's failure condition: exactly one date given, a given date
unparsable, start after end, or an inclusive day count above 31. -/
def claimDateFail (date_from date_to : Option (Option ℤ)) (today d : ℤ) : Prop :=
  date_from.isNone ≠ date_to.isNone ∨ date_from = some none ∨ date_to = some none ∨
    (∃ s e, resolvedBounds date_from date_to today d = some (s, e) ∧
      (e < s ∨ 31 < e - s + 1))

/-- Two recommendations for the C8 witness (equal campaign, priorities 1 / 5). -/
def recLow8 : BidRec :=
  { campaign_id := 3, nm_id := 11, placement := .search, action := .decrease,
    tag := .killTag, priority_score := 1, current_bid_kopecks := 100,
    new_bid_kopecks := 90, delta_kopecks := -10, delta_pct := some (-10),
    min_bid_floor_kopecks := none, spend_rub := 7 }

/-- The higher-priority recommendation of the C8 witness. -/
def recHigh8 : BidRec :=
  { campaign_id := 2, nm_id := 12, placement := .search, action := .decrease,
    tag := .killTag, priority_score := 5, current_bid_kopecks := 200,
    new_bid_kopecks := 180, delta_kopecks := -20, delta_pct := some (-10),
    min_bid_floor_kopecks := none, spend_rub := 3 }

/-! ## C9 — budget planner -/

/-- Claim-side spend per day in minor units (kopecks): the claim's "spend per
day" measured in minor units is 100 × the ruble value. -/
def claimSpdKop (stat : StatIn) (day_count : ℤ) : ℚ :=
  (campaignMetrics stat).spend_rub / (day_count : ℚ) * 100

/-- Claim-side runway: current budget (minor units) divided by spend per day
(minor units). -/
def claimRunway (stat : StatIn) (btotal : ℚ) (day_count : ℤ) : ℚ :=
  (truncQ btotal : ℚ) / claimSpdKop stat day_count

/-- The claim's emission condition, word for word: both stats and budget
present, spend/day at least the configured minimum, no configured max-CPA or
min-ROAS constraint violated, runway strictly below the target. -/
def claimBudgetEmit (day_count : ℤ) (cfg : BudgetCfg) (camp : CampaignIn) : Bool :=
  match camp.stat, camp.budget_total with
  | some stat, some btotal =>
      decide (cfg.min_spend_per_day_rub ≤
        (campaignMetrics stat).spend_rub / (day_count : ℚ)) &&
      !cpaViolated cfg (campaignMetrics stat) &&
      !roasViolated cfg (campaignMetrics stat) &&
      decide (claimRunway stat btotal day_count < cfg.target_runway_days)
  | _, _ => false

/-- The claim's exact round-up of a (possibly fractional) amount to the
configured increment. -/
def claimRoundUpQ (x : ℚ) (inc : ℤ) : ℚ := (qceil (x / (inc : ℚ)) : ℚ) * (inc : ℚ)

/-- The sort order the claim describes for the emitted plans: spend per day
descending, then runway ascending. -/
def claimBudgetOrder (a b : BudgetPlan) : Prop :=
  b.spend_per_day_rub < a.spend_per_day_rub ∨
    (a.spend_per_day_rub = b.spend_per_day_rub ∧ a.runway_days ≤ b.runway_days)

instance : DecidableRel claimBudgetOrder := fun a b => by
  unfold claimBudgetOrder; infer_instance

/-- Stats for the C9 witness: spend 2 ₽/day for one day. -/
def statV9 : StatIn := { views := 0, clicks := 0, orders := 0, spend := 2, revenue := 0 }

/-- Campaign for the C9 witness: budget 500 kopecks, spend 200 kopecks/day. -/
def campV9 : CampaignIn := { campaign_id := 7, stat := some statV9, budget_total := some 500 }

/-- Configuration for the C9 witness: target runway 3 days, minimum top-up
and increment 10000 kopecks. -/
def cfgV9 : BudgetCfg :=
  { target_runway_days := 3, min_spend_per_day_rub := 1, max_cpa := none,
    min_roas := none, round_to_kopecks := 10000, min_topup_kopecks := 10000 }

/-- Stats for the C9 counterexample (fractional shortfall): spend 2.01 ₽/day. -/
def statX9 : StatIn := { views := 0, clicks := 0, orders := 0, spend := 201/100, revenue := 0 }

/-- Campaign for the C9 counterexample: budget 100 kopecks. -/
def campX9 : CampaignIn := { campaign_id := 1, stat := some statX9, budget_total := some 100 }

/-- Configuration for the C9 counterexample: target 2.5 days, increment 402. -/
def cfgX9 : BudgetCfg :=
  { target_runway_days := 5/2, min_spend_per_day_rub := 1, max_cpa := none,
    min_roas := none, round_to_kopecks := 402, min_topup_kopecks := 1 }

/-- Stats for the C9 sort counterexample: spend 2 ₽/day. -/
def statY9 : StatIn := { views := 0, clicks := 0, orders := 0, spend := 2, revenue := 0 }

/-- First campaign of the sort counterexample: zero budget, runway 0. -/
def campY9a : CampaignIn := { campaign_id := 1, stat := some statY9, budget_total := some 0 }

/-- Second campaign of the sort counterexample: budget 200, runway 1. -/
def campY9b : CampaignIn := { campaign_id := 2, stat := some statY9, budget_total := some 200 }

/-- Configuration for the C9 sort counterexample. -/
def cfgY9 : BudgetCfg :=
  { target_runway_days := 3, min_spend_per_day_rub := 1, max_cpa := none,
    min_roas := none, round_to_kopecks := 1, min_topup_kopecks := 1 }

/-- Elements satisfying `p` are not disturbed by inserting an element that
satisfies `p` and relates to all of them: it lands in front of them. -/
theorem filter_orderedInsert_pos {α : Type} (r : α → α → Prop) [DecidableRel r]
    (p : α → Bool) (a : α) (l : List α)
    (ha : p a = true) (h : ∀ b ∈ l, p b = true → r a b) :
    (l.orderedInsert r a).filter p = a :: l.filter p := by
  induction l with
  | nil => simp [ha]
  | cons b l ih =>
    by_cases hr : r a b
    · simp [List.orderedInsert, if_pos hr, ha]
    · have hpb : p b = false := by
        cases hpb : p b
        · rfl
        · exact absurd (h b (List.mem_cons_self b l) hpb) hr
      simp only [List.orderedInsert, if_neg hr, List.filter_cons, hpb]
      simp only [Bool.false_eq_true, if_false]
      exact ih (fun c hc hpc => h c (List.mem_cons_of_mem b hc) hpc)

/-- Inserting an element that does not satisfy `p` leaves the `p`-filter
unchanged. -/
theorem filter_orderedInsert_neg {α : Type} (r : α → α → Prop) [DecidableRel r]
    (p : α → Bool) (a : α) (l : List α) (ha : p a = false) :
    (l.orderedInsert r a).filter p = l.filter p := by
  induction l with
  | nil => simp [ha]
  | cons b l ih =>
    by_cases hr : r a b
    · simp [List.orderedInsert, if_pos hr, ha]
    · simp only [List.orderedInsert, if_neg hr, List.filter_cons]
      rw [ih]

/-- Stability of the stable-sort embedding: elements that are pairwise tied
under `r` (here: equal sort keys) keep their original relative order. -/
theorem filter_insertionSort {α : Type} (r : α → α → Prop) [DecidableRel r]
    (p : α → Bool) (hp : ∀ a b, p a = true → p b = true → r a b) :
    ∀ l : List α, (l.insertionSort r).filter p = l.filter p := by
  intro l
  induction l with
  | nil => rfl
  | cons a l ih =>
    cases ha : p a with
    | true =>
      rw [List.insertionSort,
        filter_orderedInsert_pos r p a _ ha
          (fun b hb hpb => hp a b ha hpb),
        ih, List.filter_cons, ha]
      simp
    | false =>
      rw [List.insertionSort, filter_orderedInsert_neg r p a _ ha, ih,
        List.filter_cons, ha]
      simp

/-! ## C1 — kill rule fires first -/

/-- C1: for every eligible (campaign, product) pair, the rules are evaluated
in strict priority order with first-match-wins semantics: whenever
`orders = 0` and `clicks ≥ kill_clicks`, the rule cascade returns the kill
rule's decision — decrease by the strong-decrease percentage with priority
`spend + clicks` — and no later rule (CPA-exceeded, CTR-floor, increase)
determines the outcome, even when the CTR-floor rule's condition also holds. -/
theorem selectRule_kill_first (p : NmPerf) (c : BidCfg)
    (ho : p.orders = 0) (hk : c.kill_clicks ≤ p.clicks) :
    selectRule p c =
      { action := .decrease, delta_pct := -|c.strong_decrease_pct|,
        priority := p.spend_rub + (p.clicks : ℚ), tag := .killTag } := by
  unfold selectRule
  rw [if_pos ⟨ho, hk⟩]

/-- C1 witness: at the concrete input the kill rule fires (delta −20%,
priority 50 + 40 = 90) although the CTR-floor condition also holds. -/
theorem selectRule_kill_first_witness :
    selectRule perfKill1 cfgKill1 =
      { action := .decrease, delta_pct := -20, priority := 90, tag := .killTag } ∧
    (cfgKill1.min_ctr = some 5 ∧ perfKill1.ctr = some 1 ∧ (1 : ℚ) < 5 ∧
      perfKill1.orders = 0 ∧ cfgKill1.min_clicks ≤ perfKill1.clicks) := by
  constructor
  · exact (selectRule_kill_first perfKill1 cfgKill1 (by decide) (by decide)).trans (by decide)
  · decide

/-! ## C6 — eligibility gate -/

/-- C6: every (campaign, product) pair whose aggregated performance has
`clicks < min_clicks` and `views < max(1000, min_clicks × 30)` produces no
recommendation, whatever the rest of the data and configuration. -/
theorem eligibility_gate_skips (campaign_id nm_id : ℤ) (pl : Placement)
    (cur : ℤ) (p : NmPerf) (c : BidCfg)
    (h1 : p.clicks < c.min_clicks) (h2 : p.views < max 1000 (c.min_clicks * 30)) :
    recommendNmBid campaign_id nm_id pl cur p c = none := by
  unfold recommendNmBid
  rw [if_pos ⟨h1, h2⟩]

/-- C6 witness: the gate suppresses the pair at the concrete input. -/
theorem eligibility_gate_skips_witness :
    recommendNmBid 1 2 .search 100 perfGate6 cfgGate6 = none :=
  eligibility_gate_skips 1 2 .search 100 perfGate6 cfgGate6 (by decide) (by decide)

/-! ## C3 — ratios are undefined exactly on non-positive denominators -/

/-- C3: in both campaign-level metrics and per-product aggregation, each
derived ratio is `none` exactly when its denominator is not positive (CTR /
views, CPC / clicks, CPA / orders, ROAS / spend, ACOS / revenue); in
particular `spend > 0` with `orders = 0` gives an undefined CPA, never zero.
Counters are non-negative by nature, which the hypotheses record. -/
theorem metrics_ratios_none_iff :
    (∀ s : StatIn, 0 ≤ s.views → 0 ≤ s.clicks → 0 ≤ s.orders →
      (((campaignMetrics s).ctr = none ↔ ¬0 < s.views) ∧
        ((campaignMetrics s).cpc_rub = none ↔ ¬0 < s.clicks) ∧
        ((campaignMetrics s).cpa_rub = none ↔ ¬0 < s.orders) ∧
        ((campaignMetrics s).roas = none ↔ ¬0 < s.spend) ∧
        ((campaignMetrics s).acos = none ↔ ¬0 < s.revenue) ∧
        (0 < s.spend → s.orders = 0 → (campaignMetrics s).cpa_rub = none))) ∧
    (∀ acc : NmAcc,
      ((finalizeAcc acc).ctr = none ↔ ¬0 < acc.views) ∧
        ((finalizeAcc acc).cpc_rub = none ↔ ¬0 < acc.clicks) ∧
        ((finalizeAcc acc).cpa_rub = none ↔ ¬0 < acc.orders)) := by
  constructor
  · intro s hv hc ho
    refine ⟨?_, ?_, ?_, ?_, ?_, ?_⟩
    · simp only [campaignMetrics]
      split_ifs with h <;> simp <;> omega
    · simp only [campaignMetrics]
      split_ifs with h <;> simp <;> omega
    · simp only [campaignMetrics]
      split_ifs with h <;> simp <;> omega
    · simp only [campaignMetrics]
      split_ifs with h <;> simp [h]
    · simp only [campaignMetrics]
      split_ifs with h <;> simp [h]
    · intro _ h0
      simp [campaignMetrics, h0]
  · intro acc
    refine ⟨?_, ?_, ?_⟩ <;> simp only [finalizeAcc] <;>
      split_ifs with h <;> simp [h]

/-- C3 witness: with `spend = 75 > 0` and `orders = 0`, CPA is undefined
while CTR is defined (views positive). -/
theorem metrics_ratios_none_iff_witness :
    (campaignMetrics statC3).cpa_rub = none ∧ (campaignMetrics statC3).ctr ≠ none := by
  have h := (metrics_ratios_none_iff.1 statC3 (by decide) (by decide) (by decide))
  refine ⟨h.2.2.2.2.2 (by decide) (by decide), ?_⟩
  intro hnone
  exact absurd (h.1.mp hnone) (by decide)

/-- One aggregation step accumulates exactly the claimed weight and weighted
sum (for rows with non-negative views, where Python's `views or clicks`
agrees with `views if views > 0 else clicks`). -/
theorem stepRow_posWeight (acc : NmAcc) (r : KwRow) (hv : 0 ≤ r.views) :
    (stepRow acc r).apWeight = acc.apWeight + posWeight r ∧
    (stepRow acc r).apWSum = acc.apWSum + posWeightedSum r := by
  have hw : (if r.views = 0 then r.clicks else r.views) = rowWeight r := by
    unfold rowWeight
    rcases eq_or_lt_of_le hv with h | h
    · simp [← h]
    · simp [h.ne', h]
  cases hap : r.avg_pos with
  | none =>
    simp [stepRow, posWeight, posWeightedSum, hap]
  | some v =>
    simp only [stepRow, posWeight, posWeightedSum, hap, hw, Option.isSome_some,
      Option.getD_some, Bool.true_and, true_and]
    by_cases hpos : 0 < rowWeight r
    · simp [hpos]
    · simp [hpos]

/-- Folding the aggregation step over a group's rows accumulates the claimed
sums. -/
theorem foldl_stepRow_posWeight (rows : List KwRow) :
    ∀ acc : NmAcc, (∀ r ∈ rows, 0 ≤ r.views) →
      (rows.foldl stepRow acc).apWeight = acc.apWeight + (rows.map posWeight).sum ∧
      (rows.foldl stepRow acc).apWSum = acc.apWSum + (rows.map posWeightedSum).sum := by
  induction rows with
  | nil => intro acc _; simp
  | cons r rows ih =>
    intro acc hv
    simp only [List.foldl_cons, List.map_cons, List.sum_cons]
    have h1 := stepRow_posWeight acc r (hv r (List.mem_cons_self r rows))
    have h2 := ih (stepRow acc r) (fun x hx => hv x (List.mem_cons_of_mem r hx))
    rw [h2.1, h2.2, h1.1, h1.2]
    constructor <;> ring

/-- C4: the aggregated average position of a group equals the sum of position
times weight over the sum of weights (weight = views, falling back to clicks
when views are zero; only rows with a present position and positive weight
contribute), rounded to 2 decimals, and is undefined when the total weight is
zero. -/
theorem avg_pos_weighted_mean (rows : List KwRow)
    (hv : ∀ r ∈ rows, 0 ≤ r.views) :
    (aggregateRows rows).avg_pos =
      if 0 < (rows.map posWeight).sum
      then some (round2 ((rows.map posWeightedSum).sum / (rows.map posWeight).sum))
      else none := by
  have h := foldl_stepRow_posWeight rows initAcc hv
  simp only [aggregateRows, finalizeAcc]
  rw [h.1, h.2]
  simp [initAcc]

/-- C4 witness: `(100×2 + 10×5)/110` rounded to 2 decimals is `2.27`. -/
theorem avg_pos_weighted_mean_witness :
    (aggregateRows rowsC4).avg_pos = some (227/100) := by
  rw [avg_pos_weighted_mean rowsC4 (by decide)]
  decide

/-! ## C5 — bad-query candidates and top-5 finalization -/

/-- C5: a keyword row is added to its group's bad-query candidates exactly
when `clicks ≥ 10`, `orders = 0` and `spend > 0` (orders being a non-negative
counter); at finalize time the candidates are stably sorted by spend
descending then clicks descending and at most the top 5 are kept. -/
theorem bad_queries_threshold_topfive :
    (∀ (acc : NmAcc) (r : KwRow), 0 ≤ r.orders →
      (stepRow acc r).bad_queries =
        acc.bad_queries ++
          (if 10 ≤ r.clicks ∧ r.orders = 0 ∧ 0 < r.spend
           then [{ query := r.norm_query, clicks := truncQ r.clicks,
                   spend_rub := round2 r.spend }]
           else [])) ∧
    (∀ acc : NmAcc,
      (finalizeAcc acc).bad_queries = (acc.bad_queries.insertionSort badRel).take 5 ∧
      (finalizeAcc acc).bad_queries.length ≤ 5 ∧
      (acc.bad_queries.insertionSort badRel).Pairwise badRel ∧
      (acc.bad_queries.insertionSort badRel).Perm acc.bad_queries) := by
  constructor
  · intro acc r ho
    simp only [stepRow]
    by_cases hc : 10 ≤ r.clicks ∧ r.orders = 0 ∧ 0 < r.spend
    · rw [if_pos hc, if_pos ⟨hc.1, le_of_eq hc.2.1, hc.2.2⟩]
    · by_cases hcode : 10 ≤ r.clicks ∧ r.orders ≤ 0 ∧ 0 < r.spend
      · exact absurd ⟨hcode.1, le_antisymm hcode.2.1 ho, hcode.2.2⟩ hc
      · rw [if_neg hc, if_neg hcode]
  · intro acc
    refine ⟨rfl, ?_, ?_, List.perm_insertionSort badRel acc.bad_queries⟩
    · simp only [finalizeAcc]
      exact List.length_take_le 5 (acc.bad_queries.insertionSort badRel)
    · exact List.sorted_insertionSort badRel acc.bad_queries

/-- C5 witness: the three worked examples and a finalization instance. -/
theorem bad_queries_threshold_topfive_witness :
    (stepRow initAcc rowIncl5).bad_queries =
      [{ query := some 1, clicks := 12, spend_rub := 45 }] ∧
    (stepRow initAcc rowOrd5).bad_queries = [] ∧
    (stepRow initAcc rowFew5).bad_queries = [] ∧
    (finalizeAcc initAcc).bad_queries.length ≤ 5 := by
  have h := bad_queries_threshold_topfive
  refine ⟨(h.1 initAcc rowIncl5 (by decide)).trans (by decide),
    (h.1 initAcc rowOrd5 (by decide)).trans (by decide),
    (h.1 initAcc rowFew5 (by decide)).trans (by decide),
    (h.2 initAcc).2.1⟩

/-- C2 (amended): when a rule selects a non-hold action, the engine computes
the new bid by the staged rounding/clamping of `amendedNewBid`, and a
recommendation is emitted exactly when that final bid differs from the
current bid. -/
theorem recommendNmBid_amended_bid_formula (campaign_id nm_id : ℤ)
    (pl : Placement) (current : ℤ) (p : NmPerf) (c : BidCfg)
    (hgate : ¬(p.clicks < c.min_clicks ∧ p.views < max 1000 (c.min_clicks * 30)))
    (hact : ¬(selectRule p c).action = .hold) :
    (recommendNmBid campaign_id nm_id pl current p c = none ↔
      amendedNewBid current (selectRule p c).delta_pct c.bid_step
        c.min_bid_floor_kopecks c.max_bid_kopecks = current) ∧
    (∀ r, recommendNmBid campaign_id nm_id pl current p c = some r →
      r.new_bid_kopecks =
        amendedNewBid current (selectRule p c).delta_pct c.bid_step
          c.min_bid_floor_kopecks c.max_bid_kopecks ∧
      r.new_bid_kopecks ≠ current ∧
      r.delta_kopecks = r.new_bid_kopecks - current) := by
  simp only [recommendNmBid, amendedNewBid, if_neg hgate, if_neg hact]
  constructor
  · split
    · rename_i h
      simp [h]
    · rename_i h
      simpa using h
  · intro r hr
    split at hr
    · exact absurd hr (by simp)
    · rename_i h
      obtain rfl : _ = r := Option.some_injective _ hr
      exact ⟨rfl, h, rfl⟩

/-- C2 witness: current bid 100, a −10% delta and step 10 yield an emitted
new bid of 90. -/
theorem recommendNmBid_amended_bid_formula_witness :
    (recommendNmBid 1 2 .search 100 perfDec2 cfgDec2).map
      (fun r => r.new_bid_kopecks) = some 90 := by
  have h := recommendNmBid_amended_bid_formula 1 2 .search 100 perfDec2 cfgDec2
    (by decide) (by decide)
  cases hr : recommendNmBid 1 2 .search 100 perfDec2 cfgDec2 with
  | none => exact absurd (h.1.mp hr) (by decide)
  | some r =>
    have hb := (h.2 r hr).1
    simp only [Option.map_some']
    rw [hb]
    decide

/-- C2 counterexample: with current bid 10 and delta +46%, the exact value is
`10 × 1.46 = 14.6`, whose nearest multiple of the step 10 is 10; but the code
double-rounds (first to the integer 15, then `15/10` half-to-even to 2) and
emits 20 — the claim's "rounded to the nearest multiple of the bid step" is
false as stated. -/
theorem recommendNmBid_not_nearest_step_multiple :
    (recommendNmBid 1 2 .search 10 perfInc2 cfgInc2).map
      (fun r => r.new_bid_kopecks) = some 20 ∧
    (selectRule perfInc2 cfgInc2).delta_pct = 46 ∧ cfgInc2.bid_step = 10 ∧
    |(10 : ℚ) * (1 + (46 : ℚ) / 100) - (10 : ℤ) * 1| <
      |(10 : ℚ) * (1 + (46 : ℚ) / 100) - (10 : ℤ) * 2| := by
  refine ⟨by decide, by decide, by decide, ?_⟩
  rw [abs_of_pos (by norm_num), abs_of_neg (by norm_num)]
  norm_num

/-- C10: re-rounding after the clamps can leave the bounds violated — with
max bid 15 and step 10 a computed bid above the cap is emitted as 20 > 15,
and with floor 14 and step 10 a computed bid below the floor is emitted as
10 < 14. -/
theorem clamp_rounding_exceeds_bounds :
    ((recommendNmBid 1 2 .search 100 perfClamp10 cfgCap10).map
        (fun r => r.new_bid_kopecks) = some 20 ∧
      cfgCap10.max_bid_kopecks = some 15 ∧ (15 : ℤ) < 20) ∧
    ((recommendNmBid 1 2 .search 30 perfClamp10 cfgFloor10).map
        (fun r => r.new_bid_kopecks) = some 10 ∧
      cfgFloor10.min_bid_floor_kopecks = some 14 ∧ (10 : ℤ) < 14) := by
  decide

/-- C7: the resolver fails exactly on the claim's four conditions; on success
it returns the resolved bounds, the inclusive ordered day list and its length
`end − start + 1`; and with neither date given and a default length of 7 it
produces the 7-day window ending yesterday. -/
theorem resolveDateRange_spec (date_from date_to : Option (Option ℤ))
    (today d : ℤ) (hd : 1 ≤ d) :
    (rdrIsOk (resolveDateRange date_from date_to today d) = false ↔
      claimDateFail date_from date_to today d) ∧
    (∀ s e dates n, resolveDateRange date_from date_to today d = .ok (s, e, dates, n) →
      resolvedBounds date_from date_to today d = some (s, e) ∧
      n = e - s + 1 ∧
      dates = (List.range n.toNat).map (fun i : ℕ => s + (i : ℤ)) ∧
      (dates.length : ℤ) = n) ∧
    (date_from = none → date_to = none → d = 7 →
      resolveDateRange date_from date_to today d =
        .ok (today - 7, today - 1,
          (List.range 7).map (fun i : ℕ => today - 7 + (i : ℤ)), 7)) := by
  have hmax : max 0 (d - 1) = d - 1 := max_eq_right (by omega)
  rcases date_from with _ | pf <;> rcases date_to with _ | pt
  · -- neither given
    refine ⟨?_, ?_, ?_⟩
    · simp only [resolveDateRange, claimDateFail, resolvedBounds, rdrIsOk, hmax]
      rw [if_neg (by simp), if_neg (by omega)]
      split_ifs with h2
      · simp only [true_iff]
        exact Or.inr (Or.inr (Or.inr ⟨_, _, rfl, Or.inr (by omega)⟩))
      · simp only [false_iff]
        push_neg
        refine ⟨by simp, by simp, by simp, ?_⟩
        rintro s e hse
        simp only [Option.some.injEq, Prod.mk.injEq] at hse
        obtain ⟨rfl, rfl⟩ := hse
        omega
    · intro s e dates n hok
      simp only [resolveDateRange, hmax] at hok
      rw [if_neg (by simp), if_neg (by omega)] at hok
      split_ifs at hok with h2
      simp only [Except.ok.injEq, Prod.mk.injEq] at hok
      obtain ⟨rfl, rfl, rfl, rfl⟩ := hok
      refine ⟨by simp [resolvedBounds, hmax], by omega, rfl, ?_⟩
      rw [List.length_map, List.length_range]
      omega
    · intro _ _ hd7
      subst hd7
      have h1 : (max 0 (7 - 1) : ℤ) = 6 := by norm_num
      simp only [resolveDateRange, h1]
      rw [if_neg (by simp), if_neg (by omega), if_neg (by omega)]
      refine congrArg Except.ok ?_
      have hs : today - 1 - 6 = today - 7 := by omega
      rw [hs]
      have h7 : today - 1 - (today - 7) + 1 = 7 := by omega
      rw [h7]
      rfl
  · -- only `--to` given
    refine ⟨?_, ?_, fun _ h => absurd h (by simp)⟩
    · simp only [resolveDateRange, claimDateFail, rdrIsOk]
      rw [if_pos (by simp)]
      simp
    · intro s e dates n hok
      simp only [resolveDateRange] at hok
      rw [if_pos (by simp)] at hok
      exact absurd hok (by simp)
  · -- only `--from` given
    refine ⟨?_, ?_, fun h => absurd h (by simp)⟩
    · simp only [resolveDateRange, claimDateFail, rdrIsOk]
      rw [if_pos (by simp)]
      simp
    · intro s e dates n hok
      simp only [resolveDateRange] at hok
      rw [if_pos (by simp)] at hok
      exact absurd hok (by simp)
  · -- both given
    rcases pf with _ | s0 <;> rcases pt with _ | e0
    · refine ⟨?_, ?_, fun h => absurd h (by simp)⟩
      · simp only [resolveDateRange, claimDateFail, rdrIsOk]
        rw [if_neg (by simp)]
        simp
      · intro s e dates n hok
        simp only [resolveDateRange] at hok
        rw [if_neg (by simp)] at hok
        exact absurd hok (by simp)
    · refine ⟨?_, ?_, fun h => absurd h (by simp)⟩
      · simp only [resolveDateRange, claimDateFail, rdrIsOk]
        rw [if_neg (by simp)]
        simp
      · intro s e dates n hok
        simp only [resolveDateRange] at hok
        rw [if_neg (by simp)] at hok
        exact absurd hok (by simp)
    · refine ⟨?_, ?_, fun h => absurd h (by simp)⟩
      · simp only [resolveDateRange, claimDateFail, rdrIsOk]
        rw [if_neg (by simp)]
        simp
      · intro s e dates n hok
        simp only [resolveDateRange] at hok
        rw [if_neg (by simp)] at hok
        exact absurd hok (by simp)
    · -- both parsed
      refine ⟨?_, ?_, fun h => absurd h (by simp)⟩
      · simp only [resolveDateRange, claimDateFail, resolvedBounds, rdrIsOk]
        rw [if_neg (by simp)]
        split_ifs with h1 h2
        · simp only [true_iff]
          exact Or.inr (Or.inr (Or.inr ⟨s0, e0, rfl, Or.inl h1⟩))
        · simp only [true_iff]
          exact Or.inr (Or.inr (Or.inr ⟨s0, e0, rfl, Or.inr h2⟩))
        · simp only [false_iff]
          push_neg
          refine ⟨by simp, by simp, by simp, ?_⟩
          rintro s e hse
          simp only [Option.some.injEq, Prod.mk.injEq] at hse
          obtain ⟨rfl, rfl⟩ := hse
          omega
      · intro s e dates n hok
        simp only [resolveDateRange] at hok
        rw [if_neg (by simp)] at hok
        split_ifs at hok with h1 h2
        simp only [Except.ok.injEq, Prod.mk.injEq] at hok
        obtain ⟨rfl, rfl, rfl, rfl⟩ := hok
        refine ⟨by simp [resolvedBounds], rfl, rfl, ?_⟩
        rw [List.length_map, List.length_range]
        omega

/-- C7 witness: with neither date given, `today = 100` and `default_days = 7`,
the resolver returns the 7-day window 93..99 ending yesterday. -/
theorem resolveDateRange_spec_witness :
    resolveDateRange none none 100 7 =
      .ok (93, 99, [93, 94, 95, 96, 97, 98, 99], 7) := by
  have h := (resolveDateRange_spec none none 100 7 (by norm_num)).2.2 rfl rfl rfl
  exact h.trans (by decide)

/-! ## C8 — plan assembler determinism -/

/-- C8: the assembled plan is the input sorted by priority score descending
with spend descending as tie-break, stable on equal `(priority, spend)` keys;
`max_changes` truncation keeps a prefix of the sorted list whose members all
rank at least as high as every dropped element; and the submission payload
lists each campaign id exactly once, in ascending order.  All functions
involved are pure, so two runs on identical input produce identical output. -/
theorem plan_assembler_spec (recs : List BidRec) (m : ℤ) :
    (planSort recs).Perm recs ∧
    (planSort recs).Pairwise planRel ∧
    (∀ ps sp : ℚ,
      (planSort recs).filter
          (fun r => decide (r.priority_score = ps ∧ r.spend_rub = sp)) =
        recs.filter (fun r => decide (r.priority_score = ps ∧ r.spend_rub = sp))) ∧
    assemblePlan recs (some m) = (planSort recs).take (max 0 m).toNat ∧
    (∀ a ∈ assemblePlan recs (some m),
      ∀ b ∈ (planSort recs).drop (max 0 m).toNat, planRel a b) ∧
    ((buildBidsPatchPayload (assemblePlan recs (some m))).map Prod.fst).Pairwise
      (· < ·) ∧
    (∀ cid : ℤ,
      cid ∈ (buildBidsPatchPayload (assemblePlan recs (some m))).map Prod.fst ↔
        cid ∈ (assemblePlan recs (some m)).map (fun r => r.campaign_id)) := by
  have hperm := List.perm_insertionSort planRel recs
  have hsorted := List.sorted_insertionSort planRel recs
  refine ⟨hperm, hsorted, ?_, rfl, ?_, ?_, ?_⟩
  · intro ps sp
    refine filter_insertionSort planRel _ ?_ recs
    intro a b ha hb
    simp only [decide_eq_true_eq] at ha hb
    exact Or.inr ⟨ha.1.trans hb.1.symm, le_of_eq (hb.2.trans ha.2.symm)⟩
  · intro a ha b hb
    have hsplit := (List.pairwise_append.mp
      (by rw [List.take_append_drop]; exact hsorted :
        ((planSort recs).take (max 0 m).toNat ++
          (planSort recs).drop (max 0 m).toNat).Pairwise planRel)).2.2
    exact hsplit a ha b hb
  · have hids : (buildBidsPatchPayload (assemblePlan recs (some m))).map Prod.fst =
        (((assemblePlan recs (some m)).map (fun r => r.campaign_id)).dedup).insertionSort
          (· ≤ ·) := by
      simp only [buildBidsPatchPayload, List.map_map]
      have hcomp : (Prod.fst ∘ fun cid : ℤ =>
          (cid, (List.filter (fun r => decide (r.campaign_id = cid))
              (assemblePlan recs (some m))).map
            (fun r => ({ nm_id := r.nm_id, bid_kopecks := r.new_bid_kopecks,
                         placement := r.placement } : NmBid)))) = id := rfl
      rw [hcomp, List.map_id]
    rw [hids]
    have hsort := List.sorted_insertionSort (α := ℤ) (· ≤ ·)
      (((assemblePlan recs (some m)).map (fun r => r.campaign_id)).dedup)
    have hnodup : ((((assemblePlan recs (some m)).map
        (fun r => r.campaign_id)).dedup).insertionSort (· ≤ ·)).Nodup :=
      ((List.perm_insertionSort (· ≤ ·) _).nodup_iff).mpr (List.nodup_dedup _)
    exact (hsort.and hnodup).imp (fun h => lt_of_le_of_ne h.1 h.2)
  · intro cid
    simp [buildBidsPatchPayload, List.map_map, Function.comp]

/-- C8 witness: with `max_changes = 1` the kept element ranks at least as
high as the dropped one, instantiated at a concrete two-element plan. -/
theorem plan_assembler_spec_witness :
    planRel recHigh8 recLow8 ∧
    assemblePlan [recLow8, recHigh8] (some 1) = [recHigh8] := by
  have h := plan_assembler_spec [recLow8, recHigh8] 1
  refine ⟨h.2.2.2.2.1 recHigh8 (by decide) recLow8 (by decide), ?_⟩
  · rw [h.2.2.2.1]
    decide

/-- C9 (amended): a `BudgetTopUpPlan` is emitted exactly under the claim's
conditions; the suggested top-up equals the larger of the shortfall — the
claimed `(target runway − runway) × spend per day`, truncated toward zero to
an integer number of kopecks — and the configured minimum top-up, rounded up
to the configured increment (treated as at least 1); the emitted plans are
stably sorted ascending by `(−spend per day, runway-key)` where the runway
key is the rounded runway except that a rounded runway of exactly 0 sorts
as 999 (a Python `or 999` default). -/
theorem budget_planner_amended_spec (day_count : ℤ) (cfg : BudgetCfg)
    (camp : CampaignIn) (hd : 1 ≤ day_count)
    (hmin : 0 < cfg.min_spend_per_day_rub) :
    ((budgetPlanFor day_count cfg camp).isSome = true ↔
      claimBudgetEmit day_count cfg camp = true) ∧
    (∀ stat btotal pl, camp.stat = some stat → camp.budget_total = some btotal →
      budgetPlanFor day_count cfg camp = some pl →
      pl.suggested_topup_kopecks =
        roundUpInt
          (max (truncQ (max 0 ((cfg.target_runway_days -
              claimRunway stat btotal day_count) * claimSpdKop stat day_count)))
            cfg.min_topup_kopecks)
          (max 1 cfg.round_to_kopecks) ∧
      pl.current_budget_kopecks = truncQ btotal ∧
      pl.runway_days = round2 (claimRunway stat btotal day_count)) ∧
    (∀ camps : List CampaignIn,
      (optimizeBudgetPlan day_count cfg camps).Pairwise budgetRel ∧
      (optimizeBudgetPlan day_count cfg camps).Perm
        (camps.filterMap (budgetPlanFor day_count cfg))) := by
  have hmax : (max day_count 1 : ℤ) = day_count := max_eq_left hd
  refine ⟨?_, ?_, ?_⟩
  · rcases hcs : camp.stat with _ | stat <;>
      rcases hcb : camp.budget_total with _ | btotal <;>
      simp only [budgetPlanFor, claimBudgetEmit, hcs, hcb, hmax]
    · simp
    · simp
    · simp
    · split_ifs with h1 h2 h3 h4 h5
      · simp only [Option.isSome_none, Bool.false_eq_true, false_iff,
          Bool.and_eq_true, Bool.not_eq_true', decide_eq_true_eq]
        rintro ⟨⟨⟨hle, _⟩, _⟩, _⟩
        exact absurd hle (not_le.mpr h1)
      · simp only [Option.isSome_none, Bool.false_eq_true, false_iff,
          Bool.and_eq_true, Bool.not_eq_true', decide_eq_true_eq]
        rintro ⟨⟨⟨_, hcpa⟩, _⟩, _⟩
        rw [h2] at hcpa
        exact absurd hcpa (by simp)
      · simp only [Option.isSome_none, Bool.false_eq_true, false_iff,
          Bool.and_eq_true, Bool.not_eq_true', decide_eq_true_eq]
        rintro ⟨⟨_, hroas⟩, _⟩
        rw [h3] at hroas
        exact absurd hroas (by simp)
      · -- spd_kop ≤ 0 is impossible once spd ≥ min_spend > 0
        exfalso
        have hspd : 0 < (campaignMetrics stat).spend_rub / (day_count : ℚ) :=
          lt_of_lt_of_le hmin (not_lt.mp h1)
        linarith
      · simp only [Option.isSome_none, Bool.false_eq_true, false_iff,
          Bool.and_eq_true, Bool.not_eq_true', decide_eq_true_eq]
        rintro ⟨_, hrun⟩
        rw [claimRunway, claimSpdKop] at hrun
        exact absurd hrun (not_lt.mpr h5)
      · simp only [Option.isSome_some, true_iff, Bool.and_eq_true,
          Bool.not_eq_true', decide_eq_true_eq]
        refine ⟨⟨⟨not_lt.mp h1, Bool.eq_false_iff.mpr h2⟩,
          Bool.eq_false_iff.mpr h3⟩, ?_⟩
        rw [claimRunway, claimSpdKop]
        exact not_le.mp h5
  · intro stat btotal pl hcs hcb hok
    simp only [budgetPlanFor, hcs, hcb, hmax] at hok
    split_ifs at hok with h1 h2 h3 h4 h5
    simp only [Option.some.injEq] at hok
    subst hok
    exact ⟨rfl, rfl, rfl⟩
  · intro camps
    exact ⟨List.sorted_insertionSort budgetRel _,
      List.perm_insertionSort budgetRel _⟩

/-- C9 witness: budget 500, spend/day 200 (minor units), target 3 days —
runway 2.5 < 3, so a top-up is emitted; it is at least the configured
minimum and rounded up to the increment (10000). -/
theorem budget_planner_amended_spec_witness :
    (budgetPlanFor 1 cfgV9 campV9).isSome = true ∧
    (budgetPlanFor 1 cfgV9 campV9).map
      (fun p => (p.runway_days, p.suggested_topup_kopecks)) = some (5/2, 10000) := by
  have h := budget_planner_amended_spec 1 cfgV9 campV9 (by norm_num) (by decide)
  have hemit : (budgetPlanFor 1 cfgV9 campV9).isSome = true := h.1.mpr (by decide)
  refine ⟨hemit, ?_⟩
  cases hw : budgetPlanFor 1 cfgV9 campV9 with
  | none => rw [hw] at hemit; exact absurd hemit (by simp)
  | some pl =>
    have hs := h.2.1 statV9 500 pl rfl rfl hw
    simp only [Option.map_some', Option.some.injEq]
    rw [hs.2.2, hs.1]
    decide

/-- C9 counterexample, two parts.  (1) With spend 2.01 ₽/day over 1 day,
budget 100 and target 2.5 days the exact shortfall is 402.5 kopecks; the
claim's "larger of the shortfall and the minimum, rounded up to the
increment 402" gives 804, but the code truncates the shortfall to 402 first
and suggests 402.  (2) With two equal-spend campaigns of runways 0 and 1 the
emitted order is [runway 1, runway 0] — the Python `or 999` default makes a
zero runway sort last, so the output violates "runway ascending" as claimed. -/
theorem budget_planner_counterexample :
    ((budgetPlanFor 1 cfgX9 campX9).map (fun p => p.suggested_topup_kopecks) =
      some 402) ∧
    claimRoundUpQ
      (max ((cfgX9.target_runway_days - claimRunway statX9 100 1) *
          claimSpdKop statX9 1)
        ((cfgX9.min_topup_kopecks : ℚ)))
      cfgX9.round_to_kopecks = 804 ∧
    ((402 : ℚ) ≠ 804) ∧
    (optimizeBudgetPlan 1 cfgY9 [campY9a, campY9b]).map
      (fun p => (p.spend_per_day_rub, p.runway_days)) = [(2, 1), (2, 0)] ∧
    ¬(optimizeBudgetPlan 1 cfgY9 [campY9a, campY9b]).Pairwise claimBudgetOrder := by
  refine ⟨by decide, by decide, by norm_num, by decide, ?_⟩
  intro hpair
  have := hpair
  revert this
  decide

end WbOpt
